import Mathlib

/-!
Verification of the model-selection and prompt-construction core of the
render-ai repository (`generateImages`, `buildPrompt`, `buildNegativePrompt`,
`buildSummary` and the per-provider clients), as a shallow embedding.

Embedding conventions:
* TypeScript string-literal union types (`BuildingType`, `ArchitecturalStyle`,
  `Resolution`, `AIModel`, ...) are strings at runtime; they are embedded as
  `String`, with explicit membership predicates for the closed enums.
* `floors`, `totalArea` and `landArea` are validated integers in the
  application (zod `min/max` bounds, integer-stepped sliders); they are
  embedded as `Nat`.  JavaScript renders an integral number in a template
  literal exactly as `Nat` renders via `toString`.
* A `Record<K, string>` lookup is embedded as `String → Option String`;
  interpolating a missing (`undefined`) value into a template literal yields
  the text `"undefined"` (function `jsStr`).
* JavaScript `a || b` on strings treats `""` as falsy (`jsOr`), and on
  numbers treats `0` as falsy (`jsOrNat`).
* The template literals in the source are wrapped in `.trim()`; their only
  leading/trailing whitespace is the outer newline pair, so the embedding
  writes the trimmed string directly.
-/

/-- Pixel dimensions of a generated image (a `width`/`height` pair). -/
structure ImageSize where
  width : Nat
  height : Nat
deriving DecidableEq, Repr

/-- `GenerationRequest.materials` from src/types/generation.ts. -/
structure RequestMaterials where
  wall : String
  roof : String
deriving DecidableEq, Repr

/-- `GenerationRequest.colors` (also used for `StylePreset.colors`). -/
structure RequestColors where
  primary : String
  secondary : String
  accent : String
deriving DecidableEq, Repr

/-- `GenerationRequest.environment` from src/types/generation.ts. -/
structure RequestEnvironment where
  timeOfDay : String
  season : String
deriving DecidableEq, Repr

/-- `GenerationRequest.camera` from src/types/generation.ts. -/
structure RequestCamera where
  angle : String
deriving DecidableEq, Repr

/-- `GenerationRequest.options` from src/types/generation.ts. -/
structure RequestOptions where
  count : Nat
  resolution : String
  model : String
deriving DecidableEq, Repr

/-- `GenerationRequest` from src/types/generation.ts. -/
structure GenerationRequest where
  buildingType : String
  floors : Nat
  totalArea : Nat
  landArea : Nat
  landShape : String
  style : String
  materials : RequestMaterials
  colors : RequestColors
  environment : RequestEnvironment
  camera : RequestCamera
  options : RequestOptions
deriving DecidableEq, Repr

/-- `GeneratedImage` from src/types/generation.ts. -/
structure GeneratedImage where
  url : String
  thumbnailUrl : String
  width : Nat
  height : Nat
deriving DecidableEq, Repr

/-- `StylePreset` from src/types/generation.ts. -/
structure StylePreset where
  id : String
  name : String
  nameJa : String
  description : String
  keywords : List String
  materials : List String
  colors : RequestColors
deriving DecidableEq, Repr

/-- JavaScript template-literal interpolation of a possibly-`undefined`
string: a missing value renders as the text `undefined`. -/
def jsStr : Option String → String
  | some s => s
  | none => "undefined"

/-- JavaScript `a || b` for a possibly-`undefined` string `a`:
`undefined` and the empty string are falsy. -/
def jsOr : Option String → String → String
  | some s, d => if s == "" then d else s
  | none, d => d

/-- JavaScript `a || b` for a possibly-`undefined` number `a`:
`undefined` and `0` are falsy. -/
def jsOrNat : Option Nat → Nat → Nat
  | some n, d => if n == 0 then d else n
  | none, d => d

/-- `STYLE_PRESETS` from src/types/generation.ts. -/
def STYLE_PRESETS : List StylePreset := [
  { id := "modern_minimal", name := "Modern Minimal", nameJa := "モダンミニマル",
    description := "直線的なデザイン、白を基調とした清潔感のある外観",
    keywords := ["直線的", "ガラス", "シンプル", "白基調"],
    materials := ["concrete", "metal"],
    colors := { primary := "#FFFFFF", secondary := "#2C2C2C", accent := "#4A90D9" } },
  { id := "japanese_modern", name := "Japanese Modern", nameJa := "和モダン",
    description := "木の温もりと現代的なデザインの融合",
    keywords := ["木材", "格子", "土間", "自然素材"],
    materials := ["wood", "stucco"],
    colors := { primary := "#8B7355", secondary := "#2C2C2C", accent := "#C4A35A" } },
  { id := "scandinavian", name := "Scandinavian", nameJa := "北欧スタイル",
    description := "温かみのある自然素材と三角屋根が特徴",
    keywords := ["三角屋根", "温かみ", "自然素材", "シンプル"],
    materials := ["wood", "siding"],
    colors := { primary := "#F5F5F0", secondary := "#5C4033", accent := "#E07B39" } },
  { id := "industrial", name := "Industrial", nameJa := "インダストリアル",
    description := "鉄骨やコンクリート打放しを活かしたデザイン",
    keywords := ["鉄骨", "コンクリート", "無骨", "ロフト"],
    materials := ["concrete", "metal"],
    colors := { primary := "#4A4A4A", secondary := "#2C2C2C", accent := "#B87333" } },
  { id := "luxury", name := "Luxury", nameJa := "ラグジュアリー",
    description := "高級感のある重厚なデザイン",
    keywords := ["高級", "重厚", "シンメトリー", "石材"],
    materials := ["tile", "concrete"],
    colors := { primary := "#F8F5F0", secondary := "#1A1A2E", accent := "#D4AF37" } },
  { id := "mediterranean", name := "Mediterranean", nameJa := "南欧スタイル",
    description := "テラコッタの屋根と白壁が特徴的",
    keywords := ["テラコッタ", "白壁", "アーチ", "地中海"],
    materials := ["stucco", "tile"],
    colors := { primary := "#FFF8DC", secondary := "#8B4513", accent := "#4169E1" } },
  { id := "american", name := "American", nameJa := "アメリカン",
    description := "ラップサイディングとポーチが特徴的",
    keywords := ["ラップサイディング", "ポーチ", "ガレージ", "郊外"],
    materials := ["siding", "wood"],
    colors := { primary := "#FFFFFF", secondary := "#4A5568", accent := "#2D5A27" } }
]

/-- `MATERIAL_NAMES` from src/types/generation.ts (a `Record` keyed by the
six wall materials; indexing with any other string yields `undefined`). -/
def MATERIAL_NAMES : String → Option String := fun key =>
  if key == "siding" then some "サイディング"
  else if key == "concrete" then some "コンクリート"
  else if key == "tile" then some "タイル"
  else if key == "wood" then some "木材"
  else if key == "metal" then some "金属パネル"
  else if key == "stucco" then some "塗り壁"
  else none

/-- `ROOF_NAMES` from src/types/generation.ts. -/
def ROOF_NAMES : String → Option String := fun key =>
  if key == "flat" then some "陸屋根"
  else if key == "gable" then some "切妻屋根"
  else if key == "hip" then some "寄棟屋根"
  else if key == "shed" then some "片流れ屋根"
  else if key == "gambrel" then some "入母屋屋根"
  else none

/-- The local `buildingTypeMap` inside `buildPrompt`. -/
def buildingTypeMap : String → Option String := fun key =>
  if key == "house" then some "residential house"
  else if key == "apartment" then some "apartment building"
  else if key == "building" then some "commercial building"
  else if key == "shop" then some "retail shop building"
  else none

/-- The local `timeMap` inside `buildPrompt`. -/
def timeMap : String → Option String := fun key =>
  if key == "morning" then some "early morning golden hour light"
  else if key == "noon" then some "bright midday sunlight"
  else if key == "evening" then some "warm sunset lighting"
  else if key == "night" then some "evening with ambient lighting and interior lights on"
  else none

/-- The local `seasonMap` inside `buildPrompt`. -/
def seasonMap : String → Option String := fun key =>
  if key == "spring" then some "spring season with cherry blossoms"
  else if key == "summer" then some "summer with lush green vegetation"
  else if key == "autumn" then some "autumn with colorful foliage"
  else if key == "winter" then some "winter with bare trees"
  else none

/-- The local `cameraMap` inside `buildPrompt`. -/
def cameraMap : String → Option String := fun key =>
  if key == "front" then some "front elevation view, eye-level perspective"
  else if key == "angle45" then some "three-quarter view at 45 degrees, showing two facades"
  else if key == "aerial" then some "aerial view from 30 degrees above"
  else if key == "birdseye" then some "bird\x27s eye view from directly above"
  else if key == "closeup" then some "close-up view of the entrance"
  else if key == "distant" then some "distant view showing the building in its environment"
  else none

/-- The local `style` constant of `buildPrompt` and `buildSummary`:
`STYLE_PRESETS.find(s => s.id === request.style)`. -/
def styleOf (request : GenerationRequest) : Option StylePreset :=
  STYLE_PRESETS.find? (fun s => s.id == request.style)

/-- The local `styleName` constant of `buildPrompt`: `style?.name || 'Modern'`. -/
def styleNameOf (request : GenerationRequest) : String :=
  jsOr ((styleOf request).map (fun s => s.name)) "Modern"

/-- The local `styleKeywords` constant of `buildPrompt`:
`style?.keywords.join(', ') || ''`. -/
def styleKeywordsOf (request : GenerationRequest) : String :=
  jsOr ((styleOf request).map (fun s => String.intercalate ", " s.keywords)) ""

/-- `buildPrompt` from the prompt-builder module: the returned string is the
`.trim()`-ed template literal, written here as the concatenation of its
literal chunks and interpolated values. -/
def buildPrompt (request : GenerationRequest) : String :=
  "Photorealistic architectural exterior rendering of a " ++ styleNameOf request ++ " "
    ++ jsStr (buildingTypeMap request.buildingType) ++ ".\n\n"
    ++ "BUILDING SPECIFICATIONS:\n- Number of floors: " ++ toString request.floors
    ++ "\n- Total floor area: approximately " ++ toString request.totalArea
    ++ " square meters\n- Land area: approximately " ++ toString request.landArea
    ++ " square meters\n- Land shape: " ++ request.landShape
    ++ "\n\nARCHITECTURAL STYLE:\n- Style: " ++ styleNameOf request
    ++ "\n- Design characteristics: " ++ styleKeywordsOf request
    ++ "\n\nMATERIALS AND FINISHES:\n- Exterior wall: "
    ++ jsStr (MATERIAL_NAMES request.materials.wall)
    ++ "\n- Roof type: " ++ jsStr (ROOF_NAMES request.materials.roof)
    ++ "\n- Primary color: " ++ request.colors.primary
    ++ "\n- Secondary color: " ++ request.colors.secondary
    ++ "\n- Accent color: " ++ request.colors.accent
    ++ "\n\nENVIRONMENT AND LIGHTING:\n- Time of day: "
    ++ jsStr (timeMap request.environment.timeOfDay)
    ++ "\n- Season: " ++ jsStr (seasonMap request.environment.season)
    ++ "\n- Weather: clear sky with soft natural shadows\n\nCAMERA AND COMPOSITION:\n- View angle: "
    ++ jsStr (cameraMap request.camera.angle)
    ++ "\n- Lens: professional architectural photography, 24mm wide-angle equivalent"
    ++ "\n- Focus: sharp throughout, architectural photography style"
    ++ "\n\nQUALITY REQUIREMENTS:\n- Photorealistic quality"
    ++ "\n- High detail on materials and textures"
    ++ "\n- Professional architectural visualization"
    ++ "\n- Natural landscaping with appropriate vegetation"
    ++ "\n- Realistic shadows and reflections"
    ++ "\n- Clean, modern presentation"

/-- `buildNegativePrompt` from the prompt-builder module: a fixed
request-independent string (the `.trim()`-ed template literal; note the
trailing space after "illustration, " inside the constant). -/
def buildNegativePrompt : String :=
  "blurry, low quality, distorted, cartoon, anime, illustration, \n"
    ++ "sketch, painting, unrealistic, fantasy, floating objects,\n"
    ++ "people, cars, animals, text overlay, watermark, signature,\n"
    ++ "unfinished construction, scaffolding, construction equipment,\n"
    ++ "disproportionate, impossible architecture, physically impossible"

/-- `buildSummary` from the prompt-builder module (Japanese one-line
summary with a ternary chain over the building type). -/
def buildSummary (request : GenerationRequest) : String :=
  jsOr ((styleOf request).map (fun s => s.nameJa)) "モダン" ++ "スタイルの"
    ++ toString request.floors ++ "階建て"
    ++ (if request.buildingType == "house" then "住宅"
        else if request.buildingType == "apartment" then "マンション"
        else if request.buildingType == "building" then "ビル" else "店舗")
    ++ "（延床" ++ toString request.totalArea ++ "㎡）"

/-!
Model Selector / Dispatcher and provider clients.

The configuration surface is the set of environment variables the code
reads, each embedded as a `Bool` standing for JavaScript truthiness of the
variable (`!!process.env.X`).  Each provider client performs at most one
outbound generation `fetch`; the HTTP response of that fetch, the Google
access token (obtained by `getAccessToken` through `google-auth-library`,
not a generation call) and the measured wall-clock time are inputs of the
embedding (`World`).  A client returns the thrown error message or the
`GenerationOutput`, paired with the list of generation fetches it actually
performed, in order.
-/

/-- The `GenerationOutput` shape returned by `generateImages` and by every
provider client: `{ images, prompt, model, timeMs }`. -/
structure GenerationOutput where
  images : List GeneratedImage
  prompt : String
  model : String
  timeMs : Nat
deriving DecidableEq, Repr

/-- Environment variables read by the dispatcher and the clients
(`true` = present and non-empty, i.e. JavaScript-truthy). -/
structure Env where
  falKey : Bool
  googleCloudProjectId : Bool
  googleApplicationCredentials : Bool
deriving DecidableEq, Repr

/-- The three outbound generation endpoints
(fal.run/fal-ai/nano-banana-pro, Vertex AI Imagen predict,
fal.run/fal-ai/flux-pro/v1.1). -/
inductive Provider
  | nanoBanana
  | imagen4
  | flux2
deriving DecidableEq, Repr

/-- Outcome of a `fetch`: `success` carries the parsed JSON body
(`response.ok` true), `failure` carries the HTTP status and the error text
read from the failed response (`response.text()` for the fal.ai clients,
`response.statusText` for Imagen). -/
inductive HttpResp (α : Type)
  | success (body : α)
  | failure (status : Nat) (text : String)
deriving DecidableEq, Repr

/-- One image of a `FalResponse` (src/lib/ai/flux.ts); `content_type` and
the response fields `prompt`, `seed`, `has_nsfw_concepts`, `timings` are
never read by `generateWithFlux` and are omitted. -/
structure FalImage where
  url : String
  width : Nat
  height : Nat
deriving DecidableEq, Repr

/-- `FalResponse` (src/lib/ai/flux.ts), restricted to the fields read. -/
structure FalResponse where
  images : List FalImage
deriving DecidableEq, Repr

/-- One image of a `NanoBananaOutput` (src/lib/ai/nano-banana.ts);
`width`/`height` are optional in the provider contract. -/
structure NanoImage where
  url : String
  width : Option Nat
  height : Option Nat
deriving DecidableEq, Repr

/-- `NanoBananaOutput` (src/lib/ai/nano-banana.ts), fields read only. -/
structure NanoBananaOutput where
  images : List NanoImage
deriving DecidableEq, Repr

/-- One prediction of an `ImagenResponse` (src/lib/ai/imagen.ts). -/
structure ImagenPrediction where
  bytesBase64Encoded : String
  mimeType : String
deriving DecidableEq, Repr

/-- `ImagenResponse` (src/lib/ai/imagen.ts). -/
structure ImagenResponse where
  predictions : List ImagenPrediction
deriving DecidableEq, Repr

/-- External-world inputs of one `generateImages` invocation: the Google
access token (`none` = `google-auth-library` failed), the response each
provider endpoint would give if called, and the measured elapsed time. -/
structure World where
  accessToken : Option String
  fluxResp : HttpResp FalResponse
  imagenResp : HttpResp ImagenResponse
  nanoResp : HttpResp NanoBananaOutput
  elapsedMs : Nat
deriving Repr

namespace Flux

/-- The `sizeMap` object literal inside `generateWithFlux`
(src/lib/ai/flux.ts lines 338-345), indexed by `request.options.resolution`. -/
def sizeMap : String → Option ImageSize := fun key =>
  if key == "sd" then some ⟨1024, 768⟩
  else if key == "hd" then some ⟨1536, 1024⟩
  else if key == "4k" then some ⟨2048, 1536⟩
  else none

/-- `sizeMap[request.options.resolution] || sizeMap.hd` (an object is
JavaScript-truthy, so only `undefined` falls back). -/
def imageSize (resolution : String) : ImageSize :=
  (sizeMap resolution).getD ⟨1536, 1024⟩

/-- `generateWithFlux` (src/lib/ai/flux.ts): throws
`FAL_KEY is not configured` before any fetch when the key is missing;
otherwise performs exactly one fetch and either throws
`FLUX API error: ...` or returns the normalized output with
`model = 'flux2'` and dimensions taken from the response body. -/
def generateWithFlux (env : Env) (resp : HttpResp FalResponse) (elapsedMs : Nat)
    (request : GenerationRequest) :
    Except String GenerationOutput × List Provider :=
  if !env.falKey then
    (.error "FAL_KEY is not configured", [])
  else
    let prompt := buildPrompt request
    match resp with
    | .failure status text =>
        (.error ("FLUX API error: " ++ toString status ++ " - " ++ text), [.flux2])
    | .success data =>
        (.ok { images := data.images.map (fun img =>
                 { url := img.url, thumbnailUrl := img.url,
                   width := img.width, height := img.height }),
               prompt := prompt, model := "flux2", timeMs := elapsedMs },
         [.flux2])

end Flux

namespace Imagen

/-- `getImageSize` (src/lib/ai/imagen.ts lines 82-92): `sd` is also the
`default` branch of the switch. -/
def getImageSize (resolution : String) : ImageSize :=
  if resolution == "4k" then ⟨3840, 2160⟩
  else if resolution == "hd" then ⟨1920, 1080⟩
  else ⟨1280, 720⟩

/-- `isImagen4Available` (src/lib/ai/imagen.ts):
`!!(GOOGLE_CLOUD_PROJECT_ID && GOOGLE_APPLICATION_CREDENTIALS)`. -/
def isImagen4Available (env : Env) : Bool :=
  env.googleCloudProjectId && env.googleApplicationCredentials

/-- `generateWithImagen` (src/lib/ai/imagen.ts): throws
`GOOGLE_CLOUD_PROJECT_ID is not set` when the project id is missing, then
`getAccessToken` throws `GOOGLE_APPLICATION_CREDENTIALS is not set` when the
credentials path is missing and `Google Cloud authentication failed` when
the auth library fails — all before the single generation fetch.  On a
non-ok response it throws `Imagen 4 API error: <status> <statusText>`;
on success it returns data URLs built from the base64 predictions with the
dimensions of `getImageSize` and `model = 'imagen4'`. -/
def generateWithImagen (env : Env) (token : Option String)
    (resp : HttpResp ImagenResponse) (elapsedMs : Nat)
    (request : GenerationRequest) :
    Except String GenerationOutput × List Provider :=
  if !env.googleCloudProjectId then
    (.error "GOOGLE_CLOUD_PROJECT_ID is not set", [])
  else
    let prompt := buildPrompt request
    if !env.googleApplicationCredentials then
      (.error "GOOGLE_APPLICATION_CREDENTIALS is not set", [])
    else
      match token with
      | none => (.error "Google Cloud authentication failed", [])
      | some _ =>
        match resp with
        | .failure status statusText =>
            (.error ("Imagen 4 API error: " ++ toString status ++ " " ++ statusText),
             [.imagen4])
        | .success data =>
            let imageSize := getImageSize request.options.resolution
            (.ok { images := data.predictions.map (fun prediction =>
                     let dataUrl := "data:" ++ prediction.mimeType ++ ";base64,"
                       ++ prediction.bytesBase64Encoded
                     { url := dataUrl, thumbnailUrl := dataUrl,
                       width := imageSize.width, height := imageSize.height }),
                   prompt := prompt, model := "imagen4", timeMs := elapsedMs },
             [.imagen4])

end Imagen

namespace NanoBanana

/-- `getImageSize` (src/lib/ai/nano-banana.ts lines 58-68): the estimated
pixel size per tier; `sd` is also the `default` branch. -/
def getImageSize (resolution : String) : ImageSize :=
  if resolution == "4k" then ⟨3840, 2160⟩
  else if resolution == "hd" then ⟨1920, 1080⟩
  else ⟨1280, 720⟩

/-- `isNanoBananaAvailable` (src/lib/ai/nano-banana.ts): `!!FAL_KEY`. -/
def isNanoBananaAvailable (env : Env) : Bool :=
  env.falKey

/-- `generateWithNanoBanana` (src/lib/ai/nano-banana.ts): throws
`FAL_KEY is not configured` before any fetch when the key is missing;
otherwise performs exactly one fetch and either throws
`Nano Banana Pro API error: ...` or returns the normalized output with
`model = 'nano-banana'`, using the response dimensions where present and
the `getImageSize` estimate otherwise (`img.width || imageSize.width`). -/
def generateWithNanoBanana (env : Env) (resp : HttpResp NanoBananaOutput)
    (elapsedMs : Nat) (request : GenerationRequest) :
    Except String GenerationOutput × List Provider :=
  if !env.falKey then
    (.error "FAL_KEY is not configured", [])
  else
    let prompt := buildPrompt request
    match resp with
    | .failure status text =>
        (.error ("Nano Banana Pro API error: " ++ toString status ++ " - " ++ text),
         [.nanoBanana])
    | .success data =>
        let imageSize := getImageSize request.options.resolution
        (.ok { images := data.images.map (fun img =>
                 { url := img.url, thumbnailUrl := img.url,
                   width := jsOrNat img.width imageSize.width,
                   height := jsOrNat img.height imageSize.height }),
               prompt := prompt, model := "nano-banana", timeMs := elapsedMs },
         [.nanoBanana])

end NanoBanana

/-- Availability of the `flux2` entry as the dispatcher module reports it
(`getAvailableModels`, src/lib/ai/index.ts line 87: `!!process.env.FAL_KEY`).
The `flux2` branch of `generateImages` itself performs no availability
check; `generateWithFlux` checks the same key before its fetch. -/
def isFlux2Available (env : Env) : Bool :=
  env.falKey

/-- `generateImages` (src/lib/ai/index.ts): under `auto` picks the first of
nano-banana, imagen4 by availability and otherwise falls back to the flux2
client; for an explicitly named provider checks its availability predicate
(`nano-banana`, `imagen4`) or dispatches directly (`flux2`, `gemini`, and
the unreachable `default`, the latter two to the nano-banana client). -/
def generateImages (env : Env) (w : World) (request : GenerationRequest) :
    Except String GenerationOutput × List Provider :=
  if request.options.model == "auto" then
    if NanoBanana.isNanoBananaAvailable env then
      NanoBanana.generateWithNanoBanana env w.nanoResp w.elapsedMs request
    else if Imagen.isImagen4Available env then
      Imagen.generateWithImagen env w.accessToken w.imagenResp w.elapsedMs request
    else
      Flux.generateWithFlux env w.fluxResp w.elapsedMs request
  else if request.options.model == "nano-banana" then
    if !NanoBanana.isNanoBananaAvailable env then
      (.error "Nano Banana Pro is not configured. Please set FAL_KEY.", [])
    else
      NanoBanana.generateWithNanoBanana env w.nanoResp w.elapsedMs request
  else if request.options.model == "imagen4" then
    if !Imagen.isImagen4Available env then
      (.error "Imagen 4 is not configured. Please set GOOGLE_CLOUD_PROJECT_ID and GOOGLE_APPLICATION_CREDENTIALS.", [])
    else
      Imagen.generateWithImagen env w.accessToken w.imagenResp w.elapsedMs request
  else if request.options.model == "flux2" then
    Flux.generateWithFlux env w.fluxResp w.elapsedMs request
  else if request.options.model == "gemini" then
    NanoBanana.generateWithNanoBanana env w.nanoResp w.elapsedMs request
  else
    NanoBanana.generateWithNanoBanana env w.nanoResp w.elapsedMs request

/-!
Substring containment and closed-enum membership, used to state the
prompt-content and defensive-fallback properties.
-/

/-- `needle` occurs contiguously inside `hay`. -/
def infixOf (needle hay : String) : Prop :=
  needle.data <:+: hay.data

instance (n h : String) : Decidable (infixOf n h) := by
  unfold infixOf; infer_instance

/-- Introduction from an explicit decomposition `s = a ++ n ++ c`. -/
theorem infixOf_intro (n a c s : String) (h : s = a ++ n ++ c) : infixOf n s := by
  subst h
  exact ⟨a.data, c.data, by simp [String.data_append]⟩

/-- Introduction from an explicit decomposition `s = a ++ n`. -/
theorem infixOf_of_suffix (n a s : String) (h : s = a ++ n) : infixOf n s := by
  subst h
  exact ⟨a.data, [], by simp [String.data_append]⟩

/-- A needle inside the right part is inside the whole. -/
theorem infixOf_append_left (n s t : String) (h : infixOf n t) : infixOf n (s ++ t) := by
  obtain ⟨a, c, hc⟩ := h
  exact ⟨s.data ++ a, c, by simp [String.data_append, ← hc]⟩

/-- A needle inside the left part is inside the whole. -/
theorem infixOf_append_right (n s t : String) (h : infixOf n s) : infixOf n (s ++ t) := by
  obtain ⟨a, c, hc⟩ := h
  exact ⟨a, c ++ t.data, by simp [String.data_append, ← hc]⟩

/-- Every string is an infix of itself. -/
theorem infixOf_self (s : String) : infixOf s s :=
  ⟨[], [], by simp⟩

/-- Membership in the closed `BuildingType` enum. -/
def isValidBuildingType (s : String) : Bool :=
  s == "house" || s == "apartment" || s == "building" || s == "shop"

/-- Membership in the closed `TimeOfDay` enum. -/
def isValidTimeOfDay (s : String) : Bool :=
  s == "morning" || s == "noon" || s == "evening" || s == "night"

/-- Membership in the closed `Season` enum. -/
def isValidSeason (s : String) : Bool :=
  s == "spring" || s == "summer" || s == "autumn" || s == "winter"

/-- Membership in the closed `CameraAngle` enum. -/
def isValidCameraAngle (s : String) : Bool :=
  s == "front" || s == "angle45" || s == "aerial" || s == "birdseye"
    || s == "closeup" || s == "distant"

/-- Membership in the closed `WallMaterial` enum. -/
def isValidWallMaterial (s : String) : Bool :=
  s == "siding" || s == "concrete" || s == "tile" || s == "wood"
    || s == "metal" || s == "stucco"

/-- Membership in the closed `RoofType` enum. -/
def isValidRoofType (s : String) : Bool :=
  s == "flat" || s == "gable" || s == "hip" || s == "shed" || s == "gambrel"

/-!
Helper lemmas about the provider clients and the prompt chunks, shared by
the claim theorems below.
-/

/-- A successful nano-banana client call always reports model `nano-banana`. -/
theorem generateWithNanoBanana_model (env : Env) (resp : HttpResp NanoBananaOutput)
    (t : Nat) (r : GenerationRequest) (out : GenerationOutput)
    (h : (NanoBanana.generateWithNanoBanana env resp t r).1 = .ok out) :
    out.model = "nano-banana" := by
  unfold NanoBanana.generateWithNanoBanana at h
  split at h
  · simp at h
  · cases resp with
    | failure status text => simp at h
    | success data =>
        simp only [Except.ok.injEq] at h
        rw [← h]

/-- A successful imagen client call always reports model `imagen4`. -/
theorem generateWithImagen_model (env : Env) (token : Option String)
    (resp : HttpResp ImagenResponse) (t : Nat) (r : GenerationRequest)
    (out : GenerationOutput)
    (h : (Imagen.generateWithImagen env token resp t r).1 = .ok out) :
    out.model = "imagen4" := by
  unfold Imagen.generateWithImagen at h
  split at h
  · simp at h
  · split at h
    · simp at h
    · cases token with
      | none => simp at h
      | some tok =>
          cases resp with
          | failure status text => simp at h
          | success data =>
              simp only [Except.ok.injEq] at h
              rw [← h]

/-- A successful flux client call always reports model `flux2`. -/
theorem generateWithFlux_model (env : Env) (resp : HttpResp FalResponse)
    (t : Nat) (r : GenerationRequest) (out : GenerationOutput)
    (h : (Flux.generateWithFlux env resp t r).1 = .ok out) :
    out.model = "flux2" := by
  unfold Flux.generateWithFlux at h
  split at h
  · simp at h
  · cases resp with
    | failure status text => simp at h
    | success data =>
        simp only [Except.ok.injEq] at h
        rw [← h]

/-- The nano-banana client performs at most one generation fetch. -/
theorem generateWithNanoBanana_calls (env : Env) (resp : HttpResp NanoBananaOutput)
    (t : Nat) (r : GenerationRequest) :
    (NanoBanana.generateWithNanoBanana env resp t r).2.length ≤ 1 := by
  unfold NanoBanana.generateWithNanoBanana
  split
  · simp
  · cases resp <;> simp

/-- The imagen client performs at most one generation fetch. -/
theorem generateWithImagen_calls (env : Env) (token : Option String)
    (resp : HttpResp ImagenResponse) (t : Nat) (r : GenerationRequest) :
    (Imagen.generateWithImagen env token resp t r).2.length ≤ 1 := by
  unfold Imagen.generateWithImagen
  split
  · simp
  · split
    · simp
    · cases token with
      | none => simp
      | some tok => cases resp <;> simp

/-- The flux client performs at most one generation fetch. -/
theorem generateWithFlux_calls (env : Env) (resp : HttpResp FalResponse)
    (t : Nat) (r : GenerationRequest) :
    (Flux.generateWithFlux env resp t r).2.length ≤ 1 := by
  unfold Flux.generateWithFlux
  split
  · simp
  · cases resp <;> simp

/-- The floor count chunk occurs in the built prompt. -/
theorem buildPrompt_has_floors (r : GenerationRequest) :
    infixOf (toString r.floors) (buildPrompt r) := by
  unfold buildPrompt
  iterate 34 apply infixOf_append_right
  exact infixOf_of_suffix _ _ _ rfl

/-- The total-area chunk occurs in the built prompt. -/
theorem buildPrompt_has_totalArea (r : GenerationRequest) :
    infixOf (toString r.totalArea) (buildPrompt r) := by
  unfold buildPrompt
  iterate 32 apply infixOf_append_right
  exact infixOf_of_suffix _ _ _ rfl

/-- The primary-color chunk occurs in the built prompt. -/
theorem buildPrompt_has_primary (r : GenerationRequest) :
    infixOf r.colors.primary (buildPrompt r) := by
  unfold buildPrompt
  iterate 18 apply infixOf_append_right
  exact infixOf_of_suffix _ _ _ rfl

/-- The secondary-color chunk occurs in the built prompt. -/
theorem buildPrompt_has_secondary (r : GenerationRequest) :
    infixOf r.colors.secondary (buildPrompt r) := by
  unfold buildPrompt
  iterate 16 apply infixOf_append_right
  exact infixOf_of_suffix _ _ _ rfl

/-- The accent-color chunk occurs in the built prompt. -/
theorem buildPrompt_has_accent (r : GenerationRequest) :
    infixOf r.colors.accent (buildPrompt r) := by
  unfold buildPrompt
  iterate 14 apply infixOf_append_right
  exact infixOf_of_suffix _ _ _ rfl

/-- The style-keywords chunk occurs in the built prompt. -/
theorem buildPrompt_has_styleKeywords (r : GenerationRequest) :
    infixOf (styleKeywordsOf r) (buildPrompt r) := by
  unfold buildPrompt
  iterate 24 apply infixOf_append_right
  exact infixOf_of_suffix _ _ _ rfl

/-- Alignment helper: a needle made of three adjacent chunks. -/
theorem infixOf_append3 (a b c p : String) :
    infixOf (a ++ b ++ c) (((p ++ a) ++ b) ++ c) := by
  apply infixOf_of_suffix _ p
  simp only [String.append_assoc]

/-- On an unknown style id, the style lookup fallbacks of `buildPrompt`
apply: name `Modern` and the empty keyword set. -/
theorem styleNameOf_of_none (r : GenerationRequest) (h : styleOf r = none) :
    styleNameOf r = "Modern" := by
  simp [styleNameOf, h, jsOr]

/-- On an unknown style id, the keyword fallback is the empty string. -/
theorem styleKeywordsOf_of_none (r : GenerationRequest) (h : styleOf r = none) :
    styleKeywordsOf r = "" := by
  simp [styleKeywordsOf, h, jsOr]

/-- On a found preset with non-empty joined keywords, `styleKeywordsOf` is
the joined keyword list of that preset. -/
theorem styleKeywordsOf_of_some (r : GenerationRequest) (p : StylePreset)
    (hfind : styleOf r = some p) (hne : String.intercalate ", " p.keywords ≠ "") :
    styleKeywordsOf r = String.intercalate ", " p.keywords := by
  have hred : styleKeywordsOf r
      = if (String.intercalate ", " p.keywords == "") = true then ""
        else String.intercalate ", " p.keywords := by
    rw [styleKeywordsOf, hfind]
    rfl
  rw [hred, if_neg]
  simpa using hne

/-!
Concrete fixtures used by witnesses and counterexamples: a well-formed
request (the spec §8 example scenario), variations with single fields
replaced, environments, and worlds.
-/

/-- A well-formed request (the example scenario of the specification). -/
def sampleRequest : GenerationRequest :=
  { buildingType := "house", floors := 2, totalArea := 120, landArea := 150,
    landShape := "rectangle", style := "scandinavian",
    materials := { wall := "wood", roof := "gable" },
    colors := { primary := "#F5F5F0", secondary := "#5C4033", accent := "#E07B39" },
    environment := { timeOfDay := "noon", season := "summer" },
    camera := { angle := "front" },
    options := { count := 1, resolution := "hd", model := "auto" } }

/-- Defensive-case request: style id outside the closed enum. -/
def rBadStyle : GenerationRequest :=
  { sampleRequest with style := "gothic" }

/-- Defensive-case request: time-of-day outside the closed enum. -/
def rBadTime : GenerationRequest :=
  { sampleRequest with environment := { timeOfDay := "dusk", season := "summer" } }

/-- Defensive-case request: building type outside the closed enum. -/
def rBadType : GenerationRequest :=
  { sampleRequest with buildingType := "castle" }

/-- `sampleRequest` with an explicitly selected provider. -/
def nanoReq : GenerationRequest :=
  { sampleRequest with options := { sampleRequest.options with model := "nano-banana" } }

/-- `sampleRequest` explicitly selecting imagen4. -/
def imagenReq : GenerationRequest :=
  { sampleRequest with options := { sampleRequest.options with model := "imagen4" } }

/-- `sampleRequest` explicitly selecting flux2. -/
def fluxReq : GenerationRequest :=
  { sampleRequest with options := { sampleRequest.options with model := "flux2" } }

/-- `sampleRequest` explicitly selecting gemini. -/
def geminiReq : GenerationRequest :=
  { sampleRequest with options := { sampleRequest.options with model := "gemini" } }

/-- Only `FAL_KEY` configured. -/
def envFalOnly : Env := { falKey := true, googleCloudProjectId := false,
                          googleApplicationCredentials := false }

/-- Only the Google credentials configured. -/
def envGoogleOnly : Env := { falKey := false, googleCloudProjectId := true,
                             googleApplicationCredentials := true }

/-- No provider credentials configured. -/
def envNone : Env := { falKey := false, googleCloudProjectId := false,
                       googleApplicationCredentials := false }

/-- World in which the imagen endpoint answers successfully. -/
def imagenOkWorld : World :=
  { accessToken := some "token",
    fluxResp := .failure 500 "unused",
    imagenResp := .success { predictions := [{ bytesBase64Encoded := "QUJD", mimeType := "image/png" }] },
    nanoResp := .failure 500 "unused", elapsedMs := 1234 }

/-- World in which the nano-banana endpoint answers successfully without
reporting image dimensions. -/
def nanoOkWorld : World :=
  { accessToken := none,
    fluxResp := .failure 500 "unused",
    imagenResp := .failure 500 "unused",
    nanoResp := .success { images := [{ url := "https://img", width := none, height := none }] },
    elapsedMs := 1234 }

/-- World in which the nano-banana endpoint answers successfully and
reports explicit image dimensions. -/
def nanoSizedWorld : World :=
  { accessToken := none,
    fluxResp := .failure 500 "unused",
    imagenResp := .failure 500 "unused",
    nanoResp := .success { images := [{ url := "https://img", width := some 1024, height := some 768 }] },
    elapsedMs := 1234 }

/-- World in which the nano-banana endpoint fails. -/
def nanoFailWorld : World :=
  { accessToken := none,
    fluxResp := .failure 500 "unused",
    imagenResp := .failure 500 "unused",
    nanoResp := .failure 500 "boom", elapsedMs := 1234 }

/-- The model name of the result, if the call succeeded. -/
def resultModel (p : Except String GenerationOutput × List Provider) : Option String :=
  match p.1 with
  | .ok out => some out.model
  | .error _ => none

/-- The dimensions of the images of the result, if the call succeeded. -/
def resultSizes (p : Except String GenerationOutput × List Provider) :
    Option (List (Nat × Nat)) :=
  match p.1 with
  | .ok out => some (out.images.map (fun i => (i.width, i.height)))
  | .error _ => none

/-- C3: for any style id not present in STYLE_PRESETS, buildPrompt does not
fail (it is total by construction, as in the source, which only uses
optional chaining and `||` fallbacks): it falls back to the hardcoded
default style name `Modern` and the default (empty) keyword set, and still
produces a complete prompt containing the style block. -/
theorem buildPrompt_unknown_style_fallback (r : GenerationRequest)
    (h : styleOf r = none) :
    styleNameOf r = "Modern" ∧ styleKeywordsOf r = "" ∧
    infixOf "\n\nARCHITECTURAL STYLE:\n- Style: Modern\n- Design characteristics: "
      (buildPrompt r) ∧
    infixOf "Photorealistic architectural exterior rendering of a Modern "
      (buildPrompt r) := by
  have hn := styleNameOf_of_none r h
  have hk := styleKeywordsOf_of_none r h
  refine ⟨hn, hk, ?_, ?_⟩
  · have hm : ("\n\nARCHITECTURAL STYLE:\n- Style: " ++ "Modern"
        ++ "\n- Design characteristics: " : String)
        = "\n\nARCHITECTURAL STYLE:\n- Style: Modern\n- Design characteristics: " := by
      decide
    unfold buildPrompt
    rw [hn, hk, ← hm]
    iterate 25 apply infixOf_append_right
    apply infixOf_append3
  · have hm : ("Photorealistic architectural exterior rendering of a " ++ "Modern"
        ++ " " : String)
        = "Photorealistic architectural exterior rendering of a Modern " := by
      decide
    unfold buildPrompt
    rw [hn, ← hm]
    iterate 38 apply infixOf_append_right
    exact infixOf_self _

/-- C3 witness: the unknown style id `gothic` is not in STYLE_PRESETS and
the fallback style block is produced. -/
theorem buildPrompt_unknown_style_fallback_witness :
    styleOf rBadStyle = none ∧
    styleNameOf rBadStyle = "Modern" ∧
    infixOf "\n\nARCHITECTURAL STYLE:\n- Style: Modern\n- Design characteristics: "
      (buildPrompt rBadStyle) :=
  ⟨by decide, (buildPrompt_unknown_style_fallback rBadStyle (by decide)).1,
   (buildPrompt_unknown_style_fallback rBadStyle (by decide)).2.2.1⟩

/-- C5: each resolution tier maps to a fixed pixel pair in each provider
client; `sd` differs from `hd` and from `4k`, and every tier is landscape
(width strictly greater than height) — for the flux `sizeMap`, the imagen
`getImageSize` and the nano-banana `getImageSize` alike. -/
theorem resolution_tiers_fixed_landscape :
    (Flux.imageSize "sd" ≠ Flux.imageSize "hd"
      ∧ Flux.imageSize "sd" ≠ Flux.imageSize "4k"
      ∧ Imagen.getImageSize "sd" ≠ Imagen.getImageSize "hd"
      ∧ Imagen.getImageSize "sd" ≠ Imagen.getImageSize "4k"
      ∧ NanoBanana.getImageSize "sd" ≠ NanoBanana.getImageSize "hd"
      ∧ NanoBanana.getImageSize "sd" ≠ NanoBanana.getImageSize "4k")
    ∧ ((Flux.imageSize "sd").height < (Flux.imageSize "sd").width
      ∧ (Flux.imageSize "hd").height < (Flux.imageSize "hd").width
      ∧ (Flux.imageSize "4k").height < (Flux.imageSize "4k").width
      ∧ (Imagen.getImageSize "sd").height < (Imagen.getImageSize "sd").width
      ∧ (Imagen.getImageSize "hd").height < (Imagen.getImageSize "hd").width
      ∧ (Imagen.getImageSize "4k").height < (Imagen.getImageSize "4k").width
      ∧ (NanoBanana.getImageSize "sd").height < (NanoBanana.getImageSize "sd").width
      ∧ (NanoBanana.getImageSize "hd").height < (NanoBanana.getImageSize "hd").width
      ∧ (NanoBanana.getImageSize "4k").height < (NanoBanana.getImageSize "4k").width) := by
  decide

/-- C6: for every valid request, the built prompt contains the decimal
rendering of the floor count and of the total area, the three color strings
verbatim, and for each of the 7 styles the joined declared keyword list of
its preset. -/
theorem buildPrompt_contains_request_fields (r : GenerationRequest)
    (p : StylePreset) (hp : p ∈ STYLE_PRESETS) (hfind : styleOf r = some p) :
    infixOf (toString r.floors) (buildPrompt r)
    ∧ infixOf (toString r.totalArea) (buildPrompt r)
    ∧ infixOf r.colors.primary (buildPrompt r)
    ∧ infixOf r.colors.secondary (buildPrompt r)
    ∧ infixOf r.colors.accent (buildPrompt r)
    ∧ infixOf (String.intercalate ", " p.keywords) (buildPrompt r) := by
  refine ⟨buildPrompt_has_floors r, buildPrompt_has_totalArea r,
    buildPrompt_has_primary r, buildPrompt_has_secondary r,
    buildPrompt_has_accent r, ?_⟩
  have hne : String.intercalate ", " p.keywords ≠ "" := by
    fin_cases hp <;> decide
  rw [← styleKeywordsOf_of_some r p hfind hne]
  exact buildPrompt_has_styleKeywords r

/-- C6 witness: the example scenario request (scandinavian, 2 floors,
120 m², the scandinavian color triple). -/
theorem buildPrompt_contains_request_fields_witness :
    infixOf "2" (buildPrompt sampleRequest)
    ∧ infixOf "120" (buildPrompt sampleRequest)
    ∧ infixOf "#F5F5F0" (buildPrompt sampleRequest)
    ∧ infixOf "#5C4033" (buildPrompt sampleRequest)
    ∧ infixOf "#E07B39" (buildPrompt sampleRequest)
    ∧ infixOf "三角屋根, 温かみ, 自然素材, シンプル" (buildPrompt sampleRequest) := by
  have h := buildPrompt_contains_request_fields sampleRequest
    { id := "scandinavian", name := "Scandinavian", nameJa := "北欧スタイル",
      description := "温かみのある自然素材と三角屋根が特徴",
      keywords := ["三角屋根", "温かみ", "自然素材", "シンプル"],
      materials := ["wood", "siding"],
      colors := { primary := "#F5F5F0", secondary := "#5C4033", accent := "#E07B39" } }
    (by decide) (by decide)
  exact h

set_option maxRecDepth 4096 in
/-- C8: buildPrompt is deterministic (it reads nothing but its argument and
the static tables: identical requests yield identical output), and
buildNegativePrompt is one fixed constant string with no request-derived
text (it takes no input at all). -/
theorem buildPrompt_deterministic_negative_constant
    (r₁ r₂ : GenerationRequest) (h : r₁ = r₂) :
    buildPrompt r₁ = buildPrompt r₂
    ∧ buildNegativePrompt
      = "blurry, low quality, distorted, cartoon, anime, illustration, \nsketch, painting, unrealistic, fantasy, floating objects,\npeople, cars, animals, text overlay, watermark, signature,\nunfinished construction, scaffolding, construction equipment,\ndisproportionate, impossible architecture, physically impossible" :=
  ⟨h ▸ rfl, by decide⟩

/-- C8 witness: the determinism theorem applied at the sample request. -/
theorem buildPrompt_deterministic_negative_constant_witness :
    buildPrompt sampleRequest = buildPrompt sampleRequest
    ∧ buildNegativePrompt
      = "blurry, low quality, distorted, cartoon, anime, illustration, \nsketch, painting, unrealistic, fantasy, floating objects,\npeople, cars, animals, text overlay, watermark, signature,\nunfinished construction, scaffolding, construction equipment,\ndisproportionate, impossible architecture, physically impossible" :=
  buildPrompt_deterministic_negative_constant sampleRequest sampleRequest rfl

/-- C7 (amended): for every well-formed request none of the prompt-builder
functions throws (they are total, as in the source, which uses only
indexing, optional chaining and ternaries); every enum-keyed lookup is
defined on its closed enum; the unknown-style defensive case falls back to
`Modern` with an empty keyword set, and an unknown building type in
`buildSummary` falls back to the final ternary branch. -/
theorem promptBuilder_total_lookups (r : GenerationRequest) :
    (isValidBuildingType r.buildingType = true
      → (buildingTypeMap r.buildingType).isSome = true)
    ∧ (isValidTimeOfDay r.environment.timeOfDay = true
      → (timeMap r.environment.timeOfDay).isSome = true)
    ∧ (isValidSeason r.environment.season = true
      → (seasonMap r.environment.season).isSome = true)
    ∧ (isValidCameraAngle r.camera.angle = true
      → (cameraMap r.camera.angle).isSome = true)
    ∧ (isValidWallMaterial r.materials.wall = true
      → (MATERIAL_NAMES r.materials.wall).isSome = true)
    ∧ (isValidRoofType r.materials.roof = true
      → (ROOF_NAMES r.materials.roof).isSome = true)
    ∧ (styleOf r = none → styleNameOf r = "Modern" ∧ styleKeywordsOf r = "")
    ∧ (r.buildingType ≠ "house" → r.buildingType ≠ "apartment"
      → r.buildingType ≠ "building" → infixOf "店舗" (buildSummary r)) := by
  refine ⟨?_, ?_, ?_, ?_, ?_, ?_, ?_, ?_⟩
  · intro h
    simp only [isValidBuildingType, Bool.or_eq_true, beq_iff_eq] at h
    rcases h with ((h | h) | h) | h <;> rw [h] <;> decide
  · intro h
    simp only [isValidTimeOfDay, Bool.or_eq_true, beq_iff_eq] at h
    rcases h with ((h | h) | h) | h <;> rw [h] <;> decide
  · intro h
    simp only [isValidSeason, Bool.or_eq_true, beq_iff_eq] at h
    rcases h with ((h | h) | h) | h <;> rw [h] <;> decide
  · intro h
    simp only [isValidCameraAngle, Bool.or_eq_true, beq_iff_eq] at h
    rcases h with ((((h | h) | h) | h) | h) | h <;> rw [h] <;> decide
  · intro h
    simp only [isValidWallMaterial, Bool.or_eq_true, beq_iff_eq] at h
    rcases h with ((((h | h) | h) | h) | h) | h <;> rw [h] <;> decide
  · intro h
    simp only [isValidRoofType, Bool.or_eq_true, beq_iff_eq] at h
    rcases h with (((h | h) | h) | h) | h <;> rw [h] <;> decide
  · intro h
    exact ⟨styleNameOf_of_none r h, styleKeywordsOf_of_none r h⟩
  · intro h1 h2 h3
    unfold buildSummary
    rw [if_neg (by simpa using h1), if_neg (by simpa using h2),
      if_neg (by simpa using h3)]
    iterate 3 apply infixOf_append_right
    exact infixOf_of_suffix _ _ _ rfl

/-- C7 witness: all lookups defined on the sample request; `gothic` style
falls back to `Modern`; `castle` building type yields the fallback noun in
the summary. -/
theorem promptBuilder_total_lookups_witness :
    (buildingTypeMap sampleRequest.buildingType).isSome = true
    ∧ (timeMap sampleRequest.environment.timeOfDay).isSome = true
    ∧ (seasonMap sampleRequest.environment.season).isSome = true
    ∧ (cameraMap sampleRequest.camera.angle).isSome = true
    ∧ (MATERIAL_NAMES sampleRequest.materials.wall).isSome = true
    ∧ (ROOF_NAMES sampleRequest.materials.roof).isSome = true
    ∧ styleNameOf rBadStyle = "Modern"
    ∧ infixOf "店舗" (buildSummary rBadType) :=
  ⟨(promptBuilder_total_lookups sampleRequest).1 (by decide),
   (promptBuilder_total_lookups sampleRequest).2.1 (by decide),
   (promptBuilder_total_lookups sampleRequest).2.2.1 (by decide),
   (promptBuilder_total_lookups sampleRequest).2.2.2.1 (by decide),
   (promptBuilder_total_lookups sampleRequest).2.2.2.2.1 (by decide),
   (promptBuilder_total_lookups sampleRequest).2.2.2.2.2.1 (by decide),
   ((promptBuilder_total_lookups rBadStyle).2.2.2.2.2.2.1 (by decide)).1,
   (promptBuilder_total_lookups rBadType).2.2.2.2.2.2.2
     (by decide) (by decide) (by decide)⟩

set_option maxRecDepth 16384 in
/-- C7 counterexample: for the unknown time-of-day `dusk`, `timeMap` has no
entry and no generic fallback phrase exists for it — `buildPrompt`
interpolates the JavaScript text `undefined` into the environment block
(the promised degradation to a generic fallback phrase does not happen;
only the style lookup has one). -/
theorem buildPrompt_unknown_enum_renders_undefined :
    timeMap rBadTime.environment.timeOfDay = none
    ∧ infixOf "- Time of day: undefined\n" (buildPrompt rBadTime) := by
  constructor
  · decide
  · decide

/-- C1: under `model = auto`, generateImages tries nano-banana, then
imagen4, then falls back to the flux2 client, dispatching to the first
available provider; a successful result reports the model of the provider
that actually served the call (`imagen4` when only the second-priority
provider is available — not the first or the third). -/
theorem generateImages_auto_priority (env : Env) (w : World)
    (r : GenerationRequest) (h : r.options.model = "auto") :
    (NanoBanana.isNanoBananaAvailable env = true →
      generateImages env w r
        = NanoBanana.generateWithNanoBanana env w.nanoResp w.elapsedMs r)
    ∧ (NanoBanana.isNanoBananaAvailable env = false
      → Imagen.isImagen4Available env = true →
      generateImages env w r
        = Imagen.generateWithImagen env w.accessToken w.imagenResp w.elapsedMs r)
    ∧ (NanoBanana.isNanoBananaAvailable env = false
      → Imagen.isImagen4Available env = false →
      generateImages env w r
        = Flux.generateWithFlux env w.fluxResp w.elapsedMs r)
    ∧ (∀ out, (generateImages env w r).1 = Except.ok out →
      (NanoBanana.isNanoBananaAvailable env = true → out.model = "nano-banana")
      ∧ (NanoBanana.isNanoBananaAvailable env = false
        → Imagen.isImagen4Available env = true → out.model = "imagen4")
      ∧ (NanoBanana.isNanoBananaAvailable env = false
        → Imagen.isImagen4Available env = false → out.model = "flux2")) := by
  refine ⟨?_, ?_, ?_, ?_⟩
  · intro ha
    simp [generateImages, h, ha]
  · intro ha hi
    simp [generateImages, h, ha, hi]
  · intro ha hi
    simp [generateImages, h, ha, hi]
  · intro out hout
    cases ha : NanoBanana.isNanoBananaAvailable env with
    | true =>
        simp [generateImages, h, ha] at hout
        refine ⟨fun _ => generateWithNanoBanana_model env w.nanoResp w.elapsedMs r out hout,
          ?_, ?_⟩ <;> exact fun hf => nomatch hf
    | false =>
        cases hi : Imagen.isImagen4Available env with
        | true =>
            simp [generateImages, h, ha, hi] at hout
            refine ⟨?_, ?_, ?_⟩
            · intro ht
              exact nomatch ht
            · intro _ _
              exact generateWithImagen_model env w.accessToken w.imagenResp w.elapsedMs r out hout
            · intro _ hf
              exact nomatch hf
        | false =>
            simp [generateImages, h, ha, hi] at hout
            refine ⟨?_, ?_, ?_⟩
            · intro ht
              exact nomatch ht
            · intro _ ht
              exact nomatch ht
            · intro _ _
              exact generateWithFlux_model env w.fluxResp w.elapsedMs r out hout

/-- C1 witness: with only the Google credentials configured, the auto
request is served by imagen4 and reported as `imagen4`. -/
theorem generateImages_auto_priority_witness :
    NanoBanana.isNanoBananaAvailable envGoogleOnly = false
    ∧ Imagen.isImagen4Available envGoogleOnly = true
    ∧ generateImages envGoogleOnly imagenOkWorld sampleRequest
      = Imagen.generateWithImagen envGoogleOnly imagenOkWorld.accessToken
          imagenOkWorld.imagenResp imagenOkWorld.elapsedMs sampleRequest
    ∧ resultModel (generateImages envGoogleOnly imagenOkWorld sampleRequest)
      = some "imagen4" :=
  ⟨rfl, rfl,
   (generateImages_auto_priority envGoogleOnly imagenOkWorld sampleRequest rfl).2.1 rfl rfl,
   rfl⟩

/-- C2: an explicitly named provider whose availability predicate is false
makes generateImages fail with the configuration error naming the missing
credential, with no outbound generation call and no substitution of another
provider (the trace of performed fetches is empty). -/
theorem generateImages_explicit_unavailable (env : Env) (w : World)
    (r : GenerationRequest) :
    (r.options.model = "nano-banana" → NanoBanana.isNanoBananaAvailable env = false →
      generateImages env w r
        = (.error "Nano Banana Pro is not configured. Please set FAL_KEY.", [])
      ∧ infixOf "FAL_KEY" "Nano Banana Pro is not configured. Please set FAL_KEY.")
    ∧ (r.options.model = "imagen4" → Imagen.isImagen4Available env = false →
      generateImages env w r
        = (.error "Imagen 4 is not configured. Please set GOOGLE_CLOUD_PROJECT_ID and GOOGLE_APPLICATION_CREDENTIALS.", [])
      ∧ infixOf "GOOGLE_CLOUD_PROJECT_ID"
          "Imagen 4 is not configured. Please set GOOGLE_CLOUD_PROJECT_ID and GOOGLE_APPLICATION_CREDENTIALS.")
    ∧ (r.options.model = "flux2" → isFlux2Available env = false →
      generateImages env w r = (.error "FAL_KEY is not configured", [])
      ∧ infixOf "FAL_KEY" "FAL_KEY is not configured") := by
  refine ⟨?_, ?_, ?_⟩
  · intro hm hv
    refine ⟨?_, by decide⟩
    simp [generateImages, hm, hv]
  · intro hm hv
    refine ⟨?_, by decide⟩
    simp [generateImages, hm, hv]
  · intro hm hv
    have hf : env.falKey = false := hv
    refine ⟨?_, by decide⟩
    simp [generateImages, hm, Flux.generateWithFlux, hf]

/-- C2 witness: with no credentials configured, each of the three explicit
requests fails with its configuration error and an empty fetch trace. -/
theorem generateImages_explicit_unavailable_witness :
    (generateImages envNone nanoFailWorld nanoReq
      = (.error "Nano Banana Pro is not configured. Please set FAL_KEY.", []))
    ∧ (generateImages envNone nanoFailWorld imagenReq
      = (.error "Imagen 4 is not configured. Please set GOOGLE_CLOUD_PROJECT_ID and GOOGLE_APPLICATION_CREDENTIALS.", []))
    ∧ (generateImages envNone nanoFailWorld fluxReq
      = (.error "FAL_KEY is not configured", [])) :=
  ⟨((generateImages_explicit_unavailable envNone nanoFailWorld nanoReq).1 rfl rfl).1,
   ((generateImages_explicit_unavailable envNone nanoFailWorld imagenReq).2.1 rfl rfl).1,
   ((generateImages_explicit_unavailable envNone nanoFailWorld fluxReq).2.2 rfl rfl).1⟩

/-- C4: every invocation of generateImages performs at most one outbound
generation call (no parallel fan-out); and under `auto`, a failure of the
chosen provider is returned as the overall error with exactly that one call
in the trace — it is not retried against the next provider in priority
order. -/
theorem generateImages_at_most_one_call (env : Env) (w : World)
    (r : GenerationRequest) :
    (generateImages env w r).2.length ≤ 1
    ∧ (r.options.model = "auto" → NanoBanana.isNanoBananaAvailable env = true →
      ∀ status text, w.nanoResp = HttpResp.failure status text →
        generateImages env w r
          = (.error ("Nano Banana Pro API error: " ++ toString status ++ " - " ++ text),
             [Provider.nanoBanana])) := by
  constructor
  · unfold generateImages
    split_ifs <;> first
      | exact generateWithNanoBanana_calls env w.nanoResp w.elapsedMs r
      | exact generateWithImagen_calls env w.accessToken w.imagenResp w.elapsedMs r
      | exact generateWithFlux_calls env w.fluxResp w.elapsedMs r
      | simp
  · intro hm ha status text hresp
    have hf : env.falKey = true := ha
    simp [generateImages, hm, ha, hresp, NanoBanana.generateWithNanoBanana, hf]

/-- C4 witness: under `auto` with only FAL_KEY configured and a failing
nano-banana endpoint, the call errors after exactly one fetch. -/
theorem generateImages_at_most_one_call_witness :
    (generateImages envFalOnly nanoFailWorld sampleRequest).2.length ≤ 1
    ∧ generateImages envFalOnly nanoFailWorld sampleRequest
      = (.error "Nano Banana Pro API error: 500 - boom", [Provider.nanoBanana]) :=
  ⟨(generateImages_at_most_one_call envFalOnly nanoFailWorld sampleRequest).1,
   (generateImages_at_most_one_call envFalOnly nanoFailWorld sampleRequest).2
     rfl rfl 500 "boom" rfl⟩

/-- C9: every successful result carries the concrete id of the provider
that served the call — `nano-banana`, `imagen4` or `flux2`, never `auto`
and never `gemini`; an explicit `gemini` request is routed to the
nano-banana client with no availability check in the dispatcher (and hence
reports `nano-banana` on success). -/
theorem generateImages_model_concrete (env : Env) (w : World)
    (r : GenerationRequest) :
    (∀ out, (generateImages env w r).1 = Except.ok out →
      (out.model = "nano-banana" ∨ out.model = "imagen4" ∨ out.model = "flux2")
      ∧ out.model ≠ "auto" ∧ out.model ≠ "gemini")
    ∧ (r.options.model = "gemini" →
      generateImages env w r
        = NanoBanana.generateWithNanoBanana env w.nanoResp w.elapsedMs r) := by
  constructor
  · intro out hout
    unfold generateImages at hout
    split_ifs at hout <;> first
      | (simp at hout)
      | (have hm := generateWithNanoBanana_model env w.nanoResp w.elapsedMs r out hout
         exact ⟨Or.inl hm, by simp [hm], by simp [hm]⟩)
      | (have hm := generateWithImagen_model env w.accessToken w.imagenResp w.elapsedMs r out hout
         exact ⟨Or.inr (Or.inl hm), by simp [hm], by simp [hm]⟩)
      | (have hm := generateWithFlux_model env w.fluxResp w.elapsedMs r out hout
         exact ⟨Or.inr (Or.inr hm), by simp [hm], by simp [hm]⟩)
  · intro hm
    simp [generateImages, hm]

/-- C9 witness: the explicit `gemini` request with FAL_KEY configured is
served by the nano-banana client and reported as `nano-banana`. -/
theorem generateImages_model_concrete_witness :
    generateImages envFalOnly nanoOkWorld geminiReq
      = NanoBanana.generateWithNanoBanana envFalOnly nanoOkWorld.nanoResp
          nanoOkWorld.elapsedMs geminiReq
    ∧ resultModel (generateImages envFalOnly nanoOkWorld geminiReq)
      = some "nano-banana" :=
  ⟨(generateImages_model_concrete envFalOnly nanoOkWorld geminiReq).2 rfl, rfl⟩

/-- C10 counterexample: the flux `hd` pair is 1536×1024, which is 3:2 —
not 4:3 as the claim labels the flux pairs. -/
theorem flux_hd_pair_not_4_3 :
    Flux.imageSize "hd" = { width := 1536, height := 1024 }
    ∧ ¬ ((Flux.imageSize "hd").width * 3 = (Flux.imageSize "hd").height * 4) := by
  decide

/-- C10 (amended): the tier-to-pixel mapping is not shared across
providers: flux2 uses sd 1024×768 (4:3), hd 1536×1024 (3:2) and
4k 2048×1536 (4:3), while imagen4 and nano-banana report the 16:9 pairs
sd 1280×720, hd 1920×1080, 4k 3840×2160; the mappings differ on every
tier, and under `auto` the dimensions reported for one tier can differ
with the provider that served the request (nano-banana prefers
response-supplied dimensions, imagen4 always reports its fixed pair). -/
theorem provider_size_maps_differ :
    (Flux.imageSize "sd" = { width := 1024, height := 768 }
      ∧ Flux.imageSize "hd" = { width := 1536, height := 1024 }
      ∧ Flux.imageSize "4k" = { width := 2048, height := 1536 })
    ∧ (Imagen.getImageSize "sd" = { width := 1280, height := 720 }
      ∧ Imagen.getImageSize "hd" = { width := 1920, height := 1080 }
      ∧ Imagen.getImageSize "4k" = { width := 3840, height := 2160 })
    ∧ (NanoBanana.getImageSize "sd" = { width := 1280, height := 720 }
      ∧ NanoBanana.getImageSize "hd" = { width := 1920, height := 1080 }
      ∧ NanoBanana.getImageSize "4k" = { width := 3840, height := 2160 })
    ∧ ((Flux.imageSize "sd").width * 3 = (Flux.imageSize "sd").height * 4
      ∧ (Flux.imageSize "4k").width * 3 = (Flux.imageSize "4k").height * 4
      ∧ (Flux.imageSize "hd").width * 2 = (Flux.imageSize "hd").height * 3)
    ∧ ((Imagen.getImageSize "sd").width * 9 = (Imagen.getImageSize "sd").height * 16
      ∧ (Imagen.getImageSize "hd").width * 9 = (Imagen.getImageSize "hd").height * 16
      ∧ (Imagen.getImageSize "4k").width * 9 = (Imagen.getImageSize "4k").height * 16)
    ∧ (Flux.imageSize "sd" ≠ Imagen.getImageSize "sd"
      ∧ Flux.imageSize "hd" ≠ Imagen.getImageSize "hd"
      ∧ Flux.imageSize "4k" ≠ Imagen.getImageSize "4k")
    ∧ ((generateImages envFalOnly nanoSizedWorld sampleRequest).2 = [Provider.nanoBanana]
      ∧ (generateImages envGoogleOnly imagenOkWorld sampleRequest).2 = [Provider.imagen4]
      ∧ resultSizes (generateImages envFalOnly nanoSizedWorld sampleRequest)
          = some [(1024, 768)]
      ∧ resultSizes (generateImages envGoogleOnly imagenOkWorld sampleRequest)
          = some [(1920, 1080)]
      ∧ resultSizes (generateImages envFalOnly nanoSizedWorld sampleRequest)
          ≠ resultSizes (generateImages envGoogleOnly imagenOkWorld sampleRequest)) := by
  exact ⟨by decide, by decide, by decide, by decide, by decide, by decide,
    rfl, rfl, rfl, rfl, by decide⟩
